import Mathlib

/-!
Verification development for the Protege.ai relational data model
(`src/models.py`).  The module under study declares a SQLAlchemy schema:
twenty tables, six closed enumerations, foreign keys with `ondelete`
actions, ORM relationship cascades, unique constraints and fixed-point
`Numeric(precision, scale)` columns.

The embedding below mirrors those declarations:

* each Python `enum.Enum` becomes a Lean inductive with the same members,
  together with its Python member `value`, the string a SQLAlchemy
  `Enum(...)` column actually persists (the member *name*, since no
  `values_callable` is configured), and the inverse lookup used when a
  stored string is read back or validated on write;
* each ORM class becomes a structure whose fields are the table's columns,
  with `Option` for nullable columns; `Date`/`DateTime` values are modelled
  as `Int` timestamps and exact `Numeric` values as `Int` amounts in minor
  units (their declared precision/scale is modelled separately as
  `NumericType` metadata);
* the database is a record of one row list per table, and the write/delete
  operations are the relational semantics induced by the declared
  constraints (`unique=True`, `UniqueConstraint`, `ondelete="CASCADE"`,
  `ondelete="SET NULL"`, relationship `cascade="all, delete-orphan"`,
  `nullable=False`).
-/

namespace Protege

/-- Error taxonomy of the model: unique-key / referential breaches,
invalid lifecycle transitions, and values outside a closed domain. -/
inductive DbError where
  | ConstraintViolation
  | InvalidStateTransition
  | DomainValueError
  deriving DecidableEq

/-- `models.py:62-69` — marital statuses for individuals. -/
inductive MaritalStatus where
  | SINGLE
  | MARRIED
  | DIVORCED
  | WIDOWED
  | OTHER
  deriving DecidableEq

/-- Python member value of a `MaritalStatus` member (`models.py:65-69`). -/
def MaritalStatus.value : MaritalStatus → String
  | .SINGLE => "single"
  | .MARRIED => "married"
  | .DIVORCED => "divorced"
  | .WIDOWED => "widowed"
  | .OTHER => "other"

/-- String persisted by a `Column(Enum(MaritalStatus))`: SQLAlchemy's
`Enum` type stores the member *name* for PEP-435 enumerations
(no `values_callable` is configured anywhere in `models.py`). -/
def MaritalStatus.storedString : MaritalStatus → String
  | .SINGLE => "SINGLE"
  | .MARRIED => "MARRIED"
  | .DIVORCED => "DIVORCED"
  | .WIDOWED => "WIDOWED"
  | .OTHER => "OTHER"

/-- Lookup of a stored string back to a `MaritalStatus` member; strings
outside the closed set have no preimage. -/
def MaritalStatus.ofStoredString (s : String) : Option MaritalStatus :=
  if s = "SINGLE" then some .SINGLE
  else if s = "MARRIED" then some .MARRIED
  else if s = "DIVORCED" then some .DIVORCED
  else if s = "WIDOWED" then some .WIDOWED
  else if s = "OTHER" then some .OTHER
  else none

/-- `models.py:72-78` — account types supported by Open Finance. -/
inductive AccountType where
  | CHECKING
  | SAVINGS
  | PREPAID
  | PAYMENT
  deriving DecidableEq

/-- Python member value of an `AccountType` member (`models.py:75-78`). -/
def AccountType.value : AccountType → String
  | .CHECKING => "checking"
  | .SAVINGS => "savings"
  | .PREPAID => "prepaid"
  | .PAYMENT => "payment"

/-- String persisted by a `Column(Enum(AccountType))` (member name). -/
def AccountType.storedString : AccountType → String
  | .CHECKING => "CHECKING"
  | .SAVINGS => "SAVINGS"
  | .PREPAID => "PREPAID"
  | .PAYMENT => "PAYMENT"

/-- Lookup of a stored string back to an `AccountType` member. -/
def AccountType.ofStoredString (s : String) : Option AccountType :=
  if s = "CHECKING" then some .CHECKING
  else if s = "SAVINGS" then some .SAVINGS
  else if s = "PREPAID" then some .PREPAID
  else if s = "PAYMENT" then some .PAYMENT
  else none

/-- `models.py:81-86` — card product types. -/
inductive CardProductType where
  | CREDIT
  | DEBIT
  | HYBRID
  deriving DecidableEq

/-- Python member value of a `CardProductType` member (`models.py:84-86`). -/
def CardProductType.value : CardProductType → String
  | .CREDIT => "credit"
  | .DEBIT => "debit"
  | .HYBRID => "hybrid"

/-- String persisted by a `Column(Enum(CardProductType))` (member name). -/
def CardProductType.storedString : CardProductType → String
  | .CREDIT => "CREDIT"
  | .DEBIT => "DEBIT"
  | .HYBRID => "HYBRID"

/-- Lookup of a stored string back to a `CardProductType` member. -/
def CardProductType.ofStoredString (s : String) : Option CardProductType :=
  if s = "CREDIT" then some .CREDIT
  else if s = "DEBIT" then some .DEBIT
  else if s = "HYBRID" then some .HYBRID
  else none

/-- `models.py:89-94` — credit product types. -/
inductive CreditProductType where
  | LOAN
  | FINANCING
  | OVERDRAFT
  deriving DecidableEq

/-- Python member value of a `CreditProductType` member (`models.py:92-94`). -/
def CreditProductType.value : CreditProductType → String
  | .LOAN => "loan"
  | .FINANCING => "financing"
  | .OVERDRAFT => "overdraft"

/-- String persisted by a `Column(Enum(CreditProductType))` (member name). -/
def CreditProductType.storedString : CreditProductType → String
  | .LOAN => "LOAN"
  | .FINANCING => "FINANCING"
  | .OVERDRAFT => "OVERDRAFT"

/-- Lookup of a stored string back to a `CreditProductType` member. -/
def CreditProductType.ofStoredString (s : String) : Option CreditProductType :=
  if s = "LOAN" then some .LOAN
  else if s = "FINANCING" then some .FINANCING
  else if s = "OVERDRAFT" then some .OVERDRAFT
  else none

/-- `models.py:97-104` — investment instrument types. -/
inductive InvestmentInstrumentType where
  | FUND
  | FIXED_INCOME_BANK
  | FIXED_INCOME_PRIVATE
  | EQUITY
  | TREASURY
  deriving DecidableEq

/-- Python member value of an `InvestmentInstrumentType` member
(`models.py:100-104`). -/
def InvestmentInstrumentType.value : InvestmentInstrumentType → String
  | .FUND => "fund"
  | .FIXED_INCOME_BANK => "fixed_income_bank"
  | .FIXED_INCOME_PRIVATE => "fixed_income_private"
  | .EQUITY => "equity"
  | .TREASURY => "treasury"

/-- String persisted by a `Column(Enum(InvestmentInstrumentType))`
(member name). -/
def InvestmentInstrumentType.storedString : InvestmentInstrumentType → String
  | .FUND => "FUND"
  | .FIXED_INCOME_BANK => "FIXED_INCOME_BANK"
  | .FIXED_INCOME_PRIVATE => "FIXED_INCOME_PRIVATE"
  | .EQUITY => "EQUITY"
  | .TREASURY => "TREASURY"

/-- Lookup of a stored string back to an `InvestmentInstrumentType` member. -/
def InvestmentInstrumentType.ofStoredString (s : String) :
    Option InvestmentInstrumentType :=
  if s = "FUND" then some .FUND
  else if s = "FIXED_INCOME_BANK" then some .FIXED_INCOME_BANK
  else if s = "FIXED_INCOME_PRIVATE" then some .FIXED_INCOME_PRIVATE
  else if s = "EQUITY" then some .EQUITY
  else if s = "TREASURY" then some .TREASURY
  else none

/-- `models.py:107-113` — payment order status values. -/
inductive PaymentStatus where
  | PENDING
  | COMPLETED
  | FAILED
  | CANCELLED
  deriving DecidableEq

/-- Python member value of a `PaymentStatus` member (`models.py:110-113`). -/
def PaymentStatus.value : PaymentStatus → String
  | .PENDING => "pending"
  | .COMPLETED => "completed"
  | .FAILED => "failed"
  | .CANCELLED => "cancelled"

/-- String persisted by a `Column(Enum(PaymentStatus))` (member name). -/
def PaymentStatus.storedString : PaymentStatus → String
  | .PENDING => "PENDING"
  | .COMPLETED => "COMPLETED"
  | .FAILED => "FAILED"
  | .CANCELLED => "CANCELLED"

/-- Lookup of a stored string back to a `PaymentStatus` member. -/
def PaymentStatus.ofStoredString (s : String) : Option PaymentStatus :=
  if s = "PENDING" then some .PENDING
  else if s = "COMPLETED" then some .COMPLETED
  else if s = "FAILED" then some .FAILED
  else if s = "CANCELLED" then some .CANCELLED
  else none

/-- Declared `Numeric(precision, scale)` type of a column (`models.py`). -/
structure NumericType where
  precision : Nat
  scale : Nat
  deriving DecidableEq

/-- `customer_core` (`models.py:116-141`): root identity row.
`tax_id` is declared `unique=True, nullable=False`; `pep_flag` is
`nullable=False, default=False`. -/
structure CustomerCore where
  id : Int
  tax_id : String
  birthdate : Option Int
  marital_status : Option MaritalStatus
  dependents_count : Option Int
  pep_flag : Bool
  deriving DecidableEq

/-- `customer_contacts` (`models.py:144-160`): FK `customer_core.id`
with `ondelete="CASCADE"`. -/
structure CustomerContact where
  id : Int
  customer_id : Int
  type : String
  value : String
  created_at : Int
  deriving DecidableEq

/-- `accounts` (`models.py:163-185`): FK `customer_core.id` with
`ondelete="CASCADE"`. -/
structure Account where
  id : Int
  customer_id : Int
  account_type : AccountType
  institution : Option String
  branch_number : Option String
  account_number : Option String
  opening_date : Option Int
  created_at : Int
  deriving DecidableEq

/-- `account_balances` (`models.py:188-206`): FK `accounts.id` with
`ondelete="CASCADE"`; `UniqueConstraint("account_id", "as_of")`. -/
structure AccountBalance where
  id : Int
  account_id : Int
  available_balance : Int
  as_of : Int
  deriving DecidableEq

/-- `account_transactions` (`models.py:209-230`): FK `accounts.id` with
`ondelete="CASCADE"`; `posting_date` is `nullable=False`,
`transaction_date` is `nullable=True`. -/
structure AccountTransaction where
  id : Int
  account_id : Int
  amount : Int
  currency : String
  mcc : Option String
  description : Option String
  posting_date : Int
  transaction_date : Option Int
  created_at : Int
  deriving DecidableEq

/-- `cards` (`models.py:233-252`): FK `customer_core.id` with
`ondelete="CASCADE"`; `card_number` is `unique=True, nullable=False`. -/
structure Card where
  id : Int
  customer_id : Int
  card_number : String
  product_type : CardProductType
  issuer : Option String
  created_at : Int
  deriving DecidableEq

/-- `card_invoices` (`models.py:255-274`): FK `cards.id` with
`ondelete="CASCADE"`. -/
structure CardInvoice where
  id : Int
  card_id : Int
  statement_date : Int
  due_date : Int
  total_amount : Int
  minimum_payment : Int
  created_at : Int
  deriving DecidableEq

/-- `card_transactions` (`models.py:277-300`): FK `cards.id` with
`ondelete="CASCADE"`; FK `card_invoices.id` with `ondelete="SET NULL"`,
`nullable=True`; `transaction_date` is `nullable=False`, `posting_date`
is `nullable=True`. -/
structure CardTransaction where
  id : Int
  card_id : Int
  invoice_id : Option Int
  amount : Int
  currency : String
  merchant_name : Option String
  mcc : Option String
  description : Option String
  transaction_date : Int
  posting_date : Option Int
  created_at : Int
  deriving DecidableEq

/-- `credit_contracts` (`models.py:303-327`): FK `customer_core.id` with
`ondelete="CASCADE"`. -/
structure CreditContract where
  id : Int
  customer_id : Int
  product_type : CreditProductType
  principal_amount : Int
  rate_nominal : Int
  maturity_date : Int
  installment_amount : Int
  balloon : Bool
  guarantee_type : Option String
  created_at : Int
  deriving DecidableEq

/-- `credit_schedules` (`models.py:330-349`): FK `credit_contracts.id`
with `ondelete="CASCADE"`; `status` is an open string with default
`"due"`. -/
structure CreditSchedule where
  id : Int
  contract_id : Int
  installment_number : Int
  due_date : Int
  installment_amount : Int
  paid_amount : Option Int
  status : String
  created_at : Int
  deriving DecidableEq

/-- `collaterals` (`models.py:352-369`): FK `credit_contracts.id` with
`ondelete="CASCADE"`. -/
structure Collateral where
  id : Int
  contract_id : Int
  collateral_type : String
  collateral_value : Int
  description : Option String
  created_at : Int
  deriving DecidableEq

/-- `positions_funds` (`models.py:372-389`): FK `customer_core.id` with
`ondelete="CASCADE"`. -/
structure PositionFund where
  id : Int
  customer_id : Int
  fund_cnpj : String
  quantity : Int
  avg_price : Int
  mark_to_market : Option Int
  liquidity_bucket : Option String
  last_event : Option Int
  deriving DecidableEq

/-- `positions_fixed_income` (`models.py:392-407`): FK `customer_core.id`
with `ondelete="CASCADE"`. -/
structure PositionFixedIncome where
  id : Int
  customer_id : Int
  instrument_id : String
  quantity : Int
  avg_price : Int
  mark_to_market : Option Int
  liquidity_bucket : Option String
  maturity_date : Option Int
  last_event : Option Int
  deriving DecidableEq

/-- `positions_equity` (`models.py:410-424`): FK `customer_core.id` with
`ondelete="CASCADE"`. -/
structure PositionEquity where
  id : Int
  customer_id : Int
  ticker : String
  quantity : Int
  avg_price : Int
  mark_to_market : Option Int
  liquidity_bucket : Option String
  last_event : Option Int
  deriving DecidableEq

/-- `positions_treasury` (`models.py:427-442`): FK `customer_core.id`
with `ondelete="CASCADE"`. -/
structure PositionTreasury where
  id : Int
  customer_id : Int
  instrument_id : String
  quantity : Int
  avg_price : Int
  mark_to_market : Option Int
  liquidity_bucket : Option String
  maturity_date : Option Int
  last_event : Option Int
  deriving DecidableEq

/-- `investment_movements` (`models.py:445-466`): FK `customer_core.id`
with `ondelete="CASCADE"`; `movement_type` is an open string. -/
structure InvestmentMovement where
  id : Int
  customer_id : Int
  instrument_id : String
  movement_type : String
  quantity : Int
  price : Int
  amount : Int
  transaction_date : Int
  settlement_date : Option Int
  created_at : Int
  deriving DecidableEq

/-- `fx_operations` (`models.py:469-488`): FK `customer_core.id` with
`ondelete="CASCADE"`; `rate` is `Numeric(10, 6), nullable=True`. -/
structure FxOperation where
  id : Int
  customer_id : Int
  currency_pair : String
  notional : Int
  nature : String
  settlement_date : Int
  rate : Option Int
  created_at : Int
  deriving DecidableEq

/-- `consents` (`models.py:491-508`): FK `customer_core.id` with
`ondelete="CASCADE"`. -/
structure Consent where
  id : Int
  customer_id : Int
  granted_at : Int
  expires_at : Option Int
  revoked_at : Option Int
  description : Option String
  deriving DecidableEq

/-- `consent_scopes` (`models.py:511-526`): FK `consents.id` with
`ondelete="CASCADE"`; `scope` is an open string. -/
structure ConsentScope where
  id : Int
  consent_id : Int
  scope : String
  created_at : Int
  deriving DecidableEq

/-- `payment_orders` (`models.py:529-548`): FK `customer_core.id` with
`ondelete="CASCADE"`; `status` defaults to `PaymentStatus.PENDING`;
`completed_at` is `nullable=True`. -/
structure PaymentOrder where
  id : Int
  customer_id : Int
  amount : Int
  currency : String
  scope : String
  pix_e2e_id : Option String
  status : PaymentStatus
  created_at : Int
  completed_at : Option Int
  deriving DecidableEq

/-- The database: one row list per table declared in `models.py`,
field names after each class's `__tablename__`. -/
structure DB where
  customer_core : List CustomerCore
  customer_contacts : List CustomerContact
  accounts : List Account
  account_balances : List AccountBalance
  account_transactions : List AccountTransaction
  cards : List Card
  card_invoices : List CardInvoice
  card_transactions : List CardTransaction
  credit_contracts : List CreditContract
  credit_schedules : List CreditSchedule
  collaterals : List Collateral
  positions_funds : List PositionFund
  positions_fixed_income : List PositionFixedIncome
  positions_equity : List PositionEquity
  positions_treasury : List PositionTreasury
  investment_movements : List InvestmentMovement
  fx_operations : List FxOperation
  consents : List Consent
  consent_scopes : List ConsentScope
  payment_orders : List PaymentOrder
  deriving DecidableEq

/-- The empty database (all twenty tables empty). -/
def emptyDB : DB :=
  { customer_core := [], customer_contacts := [], accounts := [],
    account_balances := [], account_transactions := [], cards := [],
    card_invoices := [], card_transactions := [], credit_contracts := [],
    credit_schedules := [], collaterals := [], positions_funds := [],
    positions_fixed_income := [], positions_equity := [],
    positions_treasury := [], investment_movements := [],
    fx_operations := [], consents := [], consent_scopes := [],
    payment_orders := [] }

/-- Boolean membership of an integer in a list of integers. -/
def memInt (xs : List Int) (x : Int) : Bool :=
  xs.any (fun y => y == x)

/-- Clear a card transaction's `invoice_id` when it points into the given
set of deleted invoice ids (`ondelete="SET NULL"`, `models.py:289`). -/
def detachInvoice (ids : List Int) (t : CardTransaction) : CardTransaction :=
  if t.invoice_id.any (fun j => memInt ids j) then { t with invoice_id := none } else t

/-- Ids of the accounts owned by customer `cid` (`accounts.customer_id`
FK, `models.py:175`). -/
def deletedAccountIds (db : DB) (cid : Int) : List Int :=
  (db.accounts.filter (fun a => a.customer_id == cid)).map (fun a => a.id)

/-- Ids of the cards owned by customer `cid` (`cards.customer_id` FK,
`models.py:244`). -/
def deletedCardIds (db : DB) (cid : Int) : List Int :=
  (db.cards.filter (fun c => c.customer_id == cid)).map (fun c => c.id)

/-- Ids of the invoices of cards owned by customer `cid`
(`card_invoices.card_id` FK, `models.py:266`). -/
def deletedInvoiceIds (db : DB) (cid : Int) : List Int :=
  (db.card_invoices.filter (fun i => memInt (deletedCardIds db cid) i.card_id)).map
    (fun i => i.id)

/-- Ids of the credit contracts owned by customer `cid`
(`credit_contracts.customer_id` FK, `models.py:315`). -/
def deletedContractIds (db : DB) (cid : Int) : List Int :=
  (db.credit_contracts.filter (fun k => k.customer_id == cid)).map (fun k => k.id)

/-- Ids of the consents owned by customer `cid` (`consents.customer_id`
FK, `models.py:501`). -/
def deletedConsentIds (db : DB) (cid : Int) : List Int :=
  (db.consents.filter (fun c => c.customer_id == cid)).map (fun c => c.id)

/-- Delete one `customer_core` row and cascade, per the declared delete
semantics of the schema: every foreign key of every dependent table is
declared with `ondelete="CASCADE"` (`models.py:155,175,202,221,244,266,
288,315,341,363,381,398,416,433,456,480,501,522,540`), matched on the ORM
side by `cascade="all, delete-orphan"` relationships from the customer
root (`models.py:134-141`) and from each header table to its detail
tables.  The single `ondelete="SET NULL"` key, `card_transactions.
invoice_id` (`models.py:289`), detaches a surviving transaction from a
deleted invoice instead of deleting it. -/
def deleteCustomer (db : DB) (cid : Int) : DB :=
  { customer_core := db.customer_core.filter (fun c => c.id != cid)
    customer_contacts := db.customer_contacts.filter (fun r => r.customer_id != cid)
    accounts := db.accounts.filter (fun a => a.customer_id != cid)
    account_balances :=
      db.account_balances.filter
        (fun b => !(memInt (deletedAccountIds db cid) b.account_id))
    account_transactions :=
      db.account_transactions.filter
        (fun t => !(memInt (deletedAccountIds db cid) t.account_id))
    cards := db.cards.filter (fun c => c.customer_id != cid)
    card_invoices :=
      db.card_invoices.filter (fun i => !(memInt (deletedCardIds db cid) i.card_id))
    card_transactions :=
      (db.card_transactions.filter
          (fun t => !(memInt (deletedCardIds db cid) t.card_id))).map
        (detachInvoice (deletedInvoiceIds db cid))
    credit_contracts := db.credit_contracts.filter (fun k => k.customer_id != cid)
    credit_schedules :=
      db.credit_schedules.filter
        (fun s => !(memInt (deletedContractIds db cid) s.contract_id))
    collaterals :=
      db.collaterals.filter
        (fun g => !(memInt (deletedContractIds db cid) g.contract_id))
    positions_funds := db.positions_funds.filter (fun p => p.customer_id != cid)
    positions_fixed_income :=
      db.positions_fixed_income.filter (fun p => p.customer_id != cid)
    positions_equity := db.positions_equity.filter (fun p => p.customer_id != cid)
    positions_treasury := db.positions_treasury.filter (fun p => p.customer_id != cid)
    investment_movements :=
      db.investment_movements.filter (fun m => m.customer_id != cid)
    fx_operations := db.fx_operations.filter (fun f => f.customer_id != cid)
    consents := db.consents.filter (fun c => c.customer_id != cid)
    consent_scopes :=
      db.consent_scopes.filter
        (fun s => !(memInt (deletedConsentIds db cid) s.consent_id))
    payment_orders := db.payment_orders.filter (fun p => p.customer_id != cid) }

/-- After deleting customer `cid` from pre-state `db0`, the post-state
`db` holds no row that references `cid` directly or through a pre-state
parent row (account, card, invoice, contract or consent owned by `cid`). -/
def cascadeComplete (db0 db : DB) (cid : Int) : Prop :=
  (∀ c ∈ db.customer_core, c.id ≠ cid) ∧
  (∀ r ∈ db.customer_contacts, r.customer_id ≠ cid) ∧
  (∀ a ∈ db.accounts, a.customer_id ≠ cid) ∧
  (∀ b ∈ db.account_balances, ∀ a ∈ db0.accounts,
      a.customer_id = cid → b.account_id ≠ a.id) ∧
  (∀ t ∈ db.account_transactions, ∀ a ∈ db0.accounts,
      a.customer_id = cid → t.account_id ≠ a.id) ∧
  (∀ c ∈ db.cards, c.customer_id ≠ cid) ∧
  (∀ i ∈ db.card_invoices, ∀ c ∈ db0.cards,
      c.customer_id = cid → i.card_id ≠ c.id) ∧
  (∀ t ∈ db.card_transactions, ∀ c ∈ db0.cards,
      c.customer_id = cid → t.card_id ≠ c.id) ∧
  (∀ t ∈ db.card_transactions, ∀ i ∈ db0.card_invoices, ∀ c ∈ db0.cards,
      c.customer_id = cid → i.card_id = c.id → t.invoice_id ≠ some i.id) ∧
  (∀ k ∈ db.credit_contracts, k.customer_id ≠ cid) ∧
  (∀ s ∈ db.credit_schedules, ∀ k ∈ db0.credit_contracts,
      k.customer_id = cid → s.contract_id ≠ k.id) ∧
  (∀ g ∈ db.collaterals, ∀ k ∈ db0.credit_contracts,
      k.customer_id = cid → g.contract_id ≠ k.id) ∧
  (∀ p ∈ db.positions_funds, p.customer_id ≠ cid) ∧
  (∀ p ∈ db.positions_fixed_income, p.customer_id ≠ cid) ∧
  (∀ p ∈ db.positions_equity, p.customer_id ≠ cid) ∧
  (∀ p ∈ db.positions_treasury, p.customer_id ≠ cid) ∧
  (∀ m ∈ db.investment_movements, m.customer_id ≠ cid) ∧
  (∀ f ∈ db.fx_operations, f.customer_id ≠ cid) ∧
  (∀ c ∈ db.consents, c.customer_id ≠ cid) ∧
  (∀ s ∈ db.consent_scopes, ∀ c ∈ db0.consents,
      c.customer_id = cid → s.consent_id ≠ c.id) ∧
  (∀ p ∈ db.payment_orders, p.customer_id ≠ cid)

/-- ORM-level delete of one `card_invoices` row, as SQLAlchemy executes
it for the schema as written: the relationship `CardInvoice.transactions`
is declared `cascade="all, delete-orphan"` (`models.py:274`), so
`session.delete(invoice)` cascades a DELETE to every `card_transactions`
row whose `invoice_id` is this invoice before deleting the invoice; the
column-level `ondelete="SET NULL"` never fires for those rows. -/
def deleteCardInvoiceOrm (db : DB) (iid : Int) : DB :=
  { db with
    card_invoices := db.card_invoices.filter (fun i => i.id != iid)
    card_transactions :=
      db.card_transactions.filter (fun t => t.invoice_id != some iid) }

/-- Database-level delete of one `card_invoices` row, following only the
declared foreign-key action `ondelete="SET NULL"` (`models.py:289`): the
dependent `card_transactions` rows survive with `invoice_id` cleared. -/
def deleteCardInvoiceSetNull (db : DB) (iid : Int) : DB :=
  { db with
    card_invoices := db.card_invoices.filter (fun i => i.id != iid)
    card_transactions :=
      db.card_transactions.map
        (fun t => if t.invoice_id == some iid then { t with invoice_id := none } else t) }

/-- Modelled from the spec: `src/` declares only the `payment_orders`
schema and the `PaymentStatus` enumeration (`models.py:107-113,529-548`);
the status state machine itself has no implementation in `src/`.
Spec 4.8: `PENDING` is initial; the valid transitions are
`PENDING → COMPLETED` (which sets `completed_at`), `PENDING → FAILED` and
`PENDING → CANCELLED`; `COMPLETED`, `FAILED` and `CANCELLED` are terminal
and any attempt to mutate a terminal order's status is rejected with a
state-conflict error rather than silently applied. -/
def PaymentOrder.setStatus (o : PaymentOrder) (s : PaymentStatus) (now : Int) :
    Except DbError PaymentOrder :=
  match o.status, s with
  | .PENDING, .COMPLETED => .ok { o with status := .COMPLETED, completed_at := some now }
  | .PENDING, .FAILED => .ok { o with status := .FAILED }
  | .PENDING, .CANCELLED => .ok { o with status := .CANCELLED }
  | _, _ => .error .InvalidStateTransition

/-- Insert into `account_balances`, enforcing
`UniqueConstraint("account_id", "as_of", name="uix_account_balance_as_of")`
(`models.py:197-199`): a row colliding with a stored `(account_id, as_of)`
pair is rejected and the table is left unchanged. -/
def insertAccountBalance (tbl : List AccountBalance) (row : AccountBalance) :
    Except DbError (List AccountBalance) :=
  if tbl.any (fun r => r.account_id == row.account_id && r.as_of == row.as_of) then
    .error .ConstraintViolation
  else
    .ok (tbl ++ [row])

/-- Insert into `customer_core`, enforcing `tax_id`'s `unique=True`
(`models.py:128`): a duplicate `tax_id` is rejected and the stored rows
are unchanged. -/
def insertCustomerCore (tbl : List CustomerCore) (row : CustomerCore) :
    Except DbError (List CustomerCore) :=
  if tbl.any (fun r => r.tax_id == row.tax_id) then
    .error .ConstraintViolation
  else
    .ok (tbl ++ [row])

/-- Insert into `cards`, enforcing `card_number`'s `unique=True`
(`models.py:245`): a duplicate `card_number` is rejected and the stored
rows are unchanged. -/
def insertCard (tbl : List Card) (row : Card) : Except DbError (List Card) :=
  if tbl.any (fun r => r.card_number == row.card_number) then
    .error .ConstraintViolation
  else
    .ok (tbl ++ [row])

/-- Modelled from the spec: schedule generation happens at origination
(spec 4.4) and has no implementation in `src/`; `models.py:330-349` only
declares the `credit_schedules` table, whose `status` defaults to
`"due"` (`models.py:346`).  The generated plan for a contract with `n`
installments assigns `installment_number` 1 up to `n`, one row per
installment, with due dates one period apart; an amendment recomputes
the schedule wholesale by running the same generator again. -/
def generateCreditSchedule (contractId : Int) (n : Nat) (firstDue period amount : Int) :
    List CreditSchedule :=
  (List.range n).map (fun (i : Nat) =>
    { id := (i : Int) + 1
      contract_id := contractId
      installment_number := (i : Int) + 1
      due_date := firstDue + period * (i : Int)
      installment_amount := amount
      paid_amount := none
      status := "due"
      created_at := 0 })

/-- Write-time validation of a string against the closed `AccountType`
enumeration (`Column(Enum(AccountType))`, `models.py:176`): values
outside the set are rejected. -/
def validateAccountType (s : String) : Except DbError AccountType :=
  match AccountType.ofStoredString s with
  | some a => .ok a
  | none => .error .DomainValueError

/-- Write-time validation against the closed `CardProductType`
enumeration (`models.py:246`). -/
def validateCardProductType (s : String) : Except DbError CardProductType :=
  match CardProductType.ofStoredString s with
  | some a => .ok a
  | none => .error .DomainValueError

/-- Write-time validation against the closed `CreditProductType`
enumeration (`models.py:316`). -/
def validateCreditProductType (s : String) : Except DbError CreditProductType :=
  match CreditProductType.ofStoredString s with
  | some a => .ok a
  | none => .error .DomainValueError

/-- Write-time validation against the closed `InvestmentInstrumentType`
enumeration (`models.py:97-104`). -/
def validateInstrumentType (s : String) : Except DbError InvestmentInstrumentType :=
  match InvestmentInstrumentType.ofStoredString s with
  | some a => .ok a
  | none => .error .DomainValueError

/-- Write-time validation against the closed `PaymentStatus`
enumeration (`models.py:545`). -/
def validatePaymentStatus (s : String) : Except DbError PaymentStatus :=
  match PaymentStatus.ofStoredString s with
  | some a => .ok a
  | none => .error .DomainValueError

/-- Write-time validation against the closed `MaritalStatus`
enumeration (`models.py:130`). -/
def validateMaritalStatus (s : String) : Except DbError MaritalStatus :=
  match MaritalStatus.ofStoredString s with
  | some a => .ok a
  | none => .error .DomainValueError

/-- Declared types of every `Numeric` column in `models.py`, one constant
per column, read directly off the `Column(Numeric(p, s), ...)`
declarations. -/
def accountBalance_available_balance : NumericType := ⟨18, 2⟩

/-- `account_transactions.amount = Numeric(18, 2)` (`models.py:222`). -/
def accountTransaction_amount : NumericType := ⟨18, 2⟩

/-- `card_invoices.total_amount = Numeric(18, 2)` (`models.py:269`). -/
def cardInvoice_total_amount : NumericType := ⟨18, 2⟩

/-- `card_invoices.minimum_payment = Numeric(18, 2)` (`models.py:270`). -/
def cardInvoice_minimum_payment : NumericType := ⟨18, 2⟩

/-- `card_transactions.amount = Numeric(18, 2)` (`models.py:290`). -/
def cardTransaction_amount : NumericType := ⟨18, 2⟩

/-- `credit_contracts.principal_amount = Numeric(18, 2)` (`models.py:317`). -/
def creditContract_principal_amount : NumericType := ⟨18, 2⟩

/-- `credit_contracts.rate_nominal = Numeric(10, 4)` (`models.py:318`). -/
def creditContract_rate_nominal : NumericType := ⟨10, 4⟩

/-- `credit_contracts.installment_amount = Numeric(18, 2)` (`models.py:320`). -/
def creditContract_installment_amount : NumericType := ⟨18, 2⟩

/-- `credit_schedules.installment_amount = Numeric(18, 2)` (`models.py:344`). -/
def creditSchedule_installment_amount : NumericType := ⟨18, 2⟩

/-- `credit_schedules.paid_amount = Numeric(18, 2)` (`models.py:345`). -/
def creditSchedule_paid_amount : NumericType := ⟨18, 2⟩

/-- `collaterals.collateral_value = Numeric(18, 2)` (`models.py:365`). -/
def collateral_collateral_value : NumericType := ⟨18, 2⟩

/-- `positions_funds.quantity = Numeric(20, 8)` (`models.py:383`). -/
def positionFund_quantity : NumericType := ⟨20, 8⟩

/-- `positions_funds.avg_price = Numeric(18, 4)` (`models.py:384`). -/
def positionFund_avg_price : NumericType := ⟨18, 4⟩

/-- `positions_funds.mark_to_market = Numeric(18, 4)` (`models.py:385`). -/
def positionFund_mark_to_market : NumericType := ⟨18, 4⟩

/-- `positions_fixed_income.quantity = Numeric(20, 8)` (`models.py:400`). -/
def positionFixedIncome_quantity : NumericType := ⟨20, 8⟩

/-- `positions_fixed_income.avg_price = Numeric(18, 4)` (`models.py:401`). -/
def positionFixedIncome_avg_price : NumericType := ⟨18, 4⟩

/-- `positions_fixed_income.mark_to_market = Numeric(18, 4)` (`models.py:402`). -/
def positionFixedIncome_mark_to_market : NumericType := ⟨18, 4⟩

/-- `positions_equity.quantity = Numeric(20, 8)` (`models.py:418`). -/
def positionEquity_quantity : NumericType := ⟨20, 8⟩

/-- `positions_equity.avg_price = Numeric(18, 4)` (`models.py:419`). -/
def positionEquity_avg_price : NumericType := ⟨18, 4⟩

/-- `positions_equity.mark_to_market = Numeric(18, 4)` (`models.py:420`). -/
def positionEquity_mark_to_market : NumericType := ⟨18, 4⟩

/-- `positions_treasury.quantity = Numeric(20, 8)` (`models.py:435`). -/
def positionTreasury_quantity : NumericType := ⟨20, 8⟩

/-- `positions_treasury.avg_price = Numeric(18, 4)` (`models.py:436`). -/
def positionTreasury_avg_price : NumericType := ⟨18, 4⟩

/-- `positions_treasury.mark_to_market = Numeric(18, 4)` (`models.py:437`). -/
def positionTreasury_mark_to_market : NumericType := ⟨18, 4⟩

/-- `investment_movements.quantity = Numeric(20, 8)` (`models.py:459`). -/
def investmentMovement_quantity : NumericType := ⟨20, 8⟩

/-- `investment_movements.price = Numeric(18, 4)` (`models.py:460`). -/
def investmentMovement_price : NumericType := ⟨18, 4⟩

/-- `investment_movements.amount = Numeric(18, 2)` (`models.py:461`). -/
def investmentMovement_amount : NumericType := ⟨18, 2⟩

/-- `fx_operations.notional = Numeric(18, 2)` (`models.py:482`). -/
def fxOperation_notional : NumericType := ⟨18, 2⟩

/-- `fx_operations.rate = Numeric(10, 6)` (`models.py:485`). -/
def fxOperation_rate : NumericType := ⟨10, 6⟩

/-- `payment_orders.amount = Numeric(18, 2)` (`models.py:541`). -/
def paymentOrder_amount : NumericType := ⟨18, 2⟩

/-- An incoming write for `card_transactions`, before nullability is
enforced: every column that a caller supplies is optional at the wire. -/
structure CardTransactionInput where
  id : Int
  card_id : Option Int
  invoice_id : Option Int
  amount : Option Int
  currency : Option String
  merchant_name : Option String
  mcc : Option String
  description : Option String
  transaction_date : Option Int
  posting_date : Option Int
  created_at : Option Int
  deriving DecidableEq

/-- Build a `card_transactions` row from a write, enforcing the declared
nullability (`models.py:287-297`): `card_id`, `amount` and
`transaction_date` are `nullable=False` with no default, so a write
missing any of them is rejected; `invoice_id`, `posting_date` and the
other optional columns may be null; `currency` defaults to `"BRL"` and
`created_at` to the write time. -/
def CardTransaction.fromInput (i : CardTransactionInput) (now : Int) :
    Except DbError CardTransaction :=
  match i.card_id, i.amount, i.transaction_date with
  | some cardId, some amount, some txDate =>
      .ok { id := i.id, card_id := cardId, invoice_id := i.invoice_id,
            amount := amount, currency := i.currency.getD "BRL",
            merchant_name := i.merchant_name, mcc := i.mcc,
            description := i.description, transaction_date := txDate,
            posting_date := i.posting_date,
            created_at := i.created_at.getD now }
  | _, _, _ => .error .ConstraintViolation

/-- An incoming write for `account_transactions`, before nullability is
enforced. -/
structure AccountTransactionInput where
  id : Int
  account_id : Option Int
  amount : Option Int
  currency : Option String
  mcc : Option String
  description : Option String
  posting_date : Option Int
  transaction_date : Option Int
  created_at : Option Int
  deriving DecidableEq

/-- Build an `account_transactions` row from a write, enforcing the
declared nullability (`models.py:220-228`): `account_id`, `amount` and
`posting_date` are `nullable=False` with no default, so a write missing
any of them is rejected; `transaction_date` and the other optional
columns may be null; `currency` defaults to `"BRL"` and `created_at` to
the write time. -/
def AccountTransaction.fromInput (i : AccountTransactionInput) (now : Int) :
    Except DbError AccountTransaction :=
  match i.account_id, i.amount, i.posting_date with
  | some accountId, some amount, some postDate =>
      .ok { id := i.id, account_id := accountId, amount := amount,
            currency := i.currency.getD "BRL", mcc := i.mcc,
            description := i.description, posting_date := postDate,
            transaction_date := i.transaction_date,
            created_at := i.created_at.getD now }
  | _, _, _ => .error .ConstraintViolation

/-- Write-time handling of the free-text categorical columns
(`consent_scopes.scope`, `investment_movements.movement_type`,
`collaterals.collateral_type`, `credit_schedules.status`,
`models.py:523,458,364,346`): plain `String` columns with no `Enum` or
CHECK constraint, so every string is accepted. -/
def validateOpenText (s : String) : Except DbError String :=
  .ok s

/-- Sample customer row (amounts are minor units, dates are encoded
`yyyymmdd` integers). -/
def exCustomer : CustomerCore :=
  { id := 1, tax_id := "123.456.789-00", birthdate := some 19900101,
    marital_status := some .SINGLE, dependents_count := some 0,
    pep_flag := false }

/-- Sample contact row owned by customer 1. -/
def exContact : CustomerContact :=
  { id := 1, customer_id := 1, type := "email", value := "a@example.com",
    created_at := 0 }

/-- Sample account row owned by customer 1. -/
def exAccount : Account :=
  { id := 1, customer_id := 1, account_type := .CHECKING,
    institution := none, branch_number := none, account_number := none,
    opening_date := none, created_at := 0 }

/-- Sample balance snapshot of account 1. -/
def exBalance : AccountBalance :=
  { id := 1, account_id := 1, available_balance := 100000,
    as_of := 20240101 }

/-- A second balance write colliding with `exBalance` on
`(account_id, as_of)`. -/
def exBalanceDup : AccountBalance :=
  { id := 2, account_id := 1, available_balance := 200000,
    as_of := 20240101 }

/-- A balance write for account 1 with a distinct `as_of`. -/
def exBalanceNext : AccountBalance :=
  { id := 2, account_id := 1, available_balance := 200000,
    as_of := 20240102 }

/-- Sample account transaction on account 1. -/
def exAccountTx : AccountTransaction :=
  { id := 1, account_id := 1, amount := 5000, currency := "BRL",
    mcc := none, description := none, posting_date := 20240102,
    transaction_date := none, created_at := 0 }

/-- Sample card row owned by customer 1. -/
def exCard : Card :=
  { id := 1, customer_id := 1, card_number := "5500000000000004",
    product_type := .CREDIT, issuer := none, created_at := 0 }

/-- A second card write reusing `exCard`'s `card_number`. -/
def exCardDup : Card :=
  { id := 2, customer_id := 1, card_number := "5500000000000004",
    product_type := .DEBIT, issuer := none, created_at := 0 }

/-- A second customer write reusing `exCustomer`'s `tax_id`. -/
def exCustomerDup : CustomerCore :=
  { id := 2, tax_id := "123.456.789-00", birthdate := none,
    marital_status := none, dependents_count := none, pep_flag := false }

/-- Sample invoice of card 1. -/
def exInvoice : CardInvoice :=
  { id := 1, card_id := 1, statement_date := 20240131,
    due_date := 20240210, total_amount := 123450,
    minimum_payment := 12345, created_at := 0 }

/-- Sample card transaction on card 1, billed into invoice 1. -/
def exCardTx : CardTransaction :=
  { id := 1, card_id := 1, invoice_id := some 1, amount := 9999,
    currency := "BRL", merchant_name := none, mcc := none,
    description := none, transaction_date := 20240115,
    posting_date := none, created_at := 0 }

/-- Sample credit contract of customer 1. -/
def exContract : CreditContract :=
  { id := 1, customer_id := 1, product_type := .LOAN,
    principal_amount := 1000000, rate_nominal := 125000,
    maturity_date := 20270101, installment_amount := 90000,
    balloon := false, guarantee_type := none, created_at := 0 }

/-- Sample schedule row of contract 1. -/
def exSchedule : CreditSchedule :=
  { id := 1, contract_id := 1, installment_number := 1,
    due_date := 20240201, installment_amount := 90000,
    paid_amount := none, status := "due", created_at := 0 }

/-- Sample collateral row of contract 1. -/
def exCollateral : Collateral :=
  { id := 1, contract_id := 1, collateral_type := "vehicle",
    collateral_value := 3000000, description := none, created_at := 0 }

/-- Sample fund position of customer 1. -/
def exPosFund : PositionFund :=
  { id := 1, customer_id := 1, fund_cnpj := "00.000.000/0001-00",
    quantity := 100000000, avg_price := 10000, mark_to_market := none,
    liquidity_bucket := none, last_event := none }

/-- Sample fixed-income position of customer 1. -/
def exPosFixedIncome : PositionFixedIncome :=
  { id := 1, customer_id := 1, instrument_id := "CDB-XYZ",
    quantity := 100000000, avg_price := 10000, mark_to_market := none,
    liquidity_bucket := none, maturity_date := none, last_event := none }

/-- Sample equity position of customer 1. -/
def exPosEquity : PositionEquity :=
  { id := 1, customer_id := 1, ticker := "PETR4",
    quantity := 100000000, avg_price := 10000, mark_to_market := none,
    liquidity_bucket := none, last_event := none }

/-- Sample treasury position of customer 1. -/
def exPosTreasury : PositionTreasury :=
  { id := 1, customer_id := 1, instrument_id := "TNM2027",
    quantity := 100000000, avg_price := 10000, mark_to_market := none,
    liquidity_bucket := none, maturity_date := none, last_event := none }

/-- Sample investment movement of customer 1. -/
def exMovement : InvestmentMovement :=
  { id := 1, customer_id := 1, instrument_id := "PETR4",
    movement_type := "buy", quantity := 100000000, price := 10000,
    amount := 10000, transaction_date := 20240110,
    settlement_date := none, created_at := 0 }

/-- Sample FX operation of customer 1. -/
def exFx : FxOperation :=
  { id := 1, customer_id := 1, currency_pair := "USD/BRL",
    notional := 100000, nature := "purchase",
    settlement_date := 20240120, rate := some 5120000, created_at := 0 }

/-- Sample consent of customer 1. -/
def exConsent : Consent :=
  { id := 1, customer_id := 1, granted_at := 0, expires_at := none,
    revoked_at := none, description := none }

/-- Sample scope of consent 1. -/
def exScope : ConsentScope :=
  { id := 1, consent_id := 1, scope := "accounts", created_at := 0 }

/-- Sample pending payment order of customer 1. -/
def exOrder : PaymentOrder :=
  { id := 1, customer_id := 1, amount := 10000, currency := "BRL",
    scope := "payments", pix_e2e_id := none, status := .PENDING,
    created_at := 0, completed_at := none }

/-- A payment order already in the terminal state `COMPLETED`. -/
def exCompletedOrder : PaymentOrder :=
  { id := 2, customer_id := 1, amount := 10000, currency := "BRL",
    scope := "payments", pix_e2e_id := some "E2E-1", status := .COMPLETED,
    created_at := 0, completed_at := some 5 }

/-- A database holding customer 1 together with one dependent row in
every table of every cluster. -/
def exDB : DB :=
  { customer_core := [exCustomer]
    customer_contacts := [exContact]
    accounts := [exAccount]
    account_balances := [exBalance]
    account_transactions := [exAccountTx]
    cards := [exCard]
    card_invoices := [exInvoice]
    card_transactions := [exCardTx]
    credit_contracts := [exContract]
    credit_schedules := [exSchedule]
    collaterals := [exCollateral]
    positions_funds := [exPosFund]
    positions_fixed_income := [exPosFixedIncome]
    positions_equity := [exPosEquity]
    positions_treasury := [exPosTreasury]
    investment_movements := [exMovement]
    fx_operations := [exFx]
    consents := [exConsent]
    consent_scopes := [exScope]
    payment_orders := [exOrder] }

/-- A database holding one card, one invoice of that card and one
transaction billed into that invoice. -/
def invoiceDB : DB :=
  { emptyDB with
    cards := [exCard]
    card_invoices := [exInvoice]
    card_transactions := [exCardTx] }

/-- A `card_transactions` write with no `transaction_date`. -/
def exCardTxInputNoTxDate : CardTransactionInput :=
  { id := 1, card_id := some 1, invoice_id := none, amount := some 100,
    currency := none, merchant_name := none, mcc := none,
    description := none, transaction_date := none,
    posting_date := some 20240101, created_at := none }

/-- A `card_transactions` write with a `transaction_date` but no
`posting_date`. -/
def exCardTxInputNoPosting : CardTransactionInput :=
  { id := 1, card_id := some 1, invoice_id := none, amount := some 100,
    currency := none, merchant_name := none, mcc := none,
    description := none, transaction_date := some 20240101,
    posting_date := none, created_at := none }

/-- An `account_transactions` write with no `posting_date`. -/
def exAccountTxInputNoPosting : AccountTransactionInput :=
  { id := 1, account_id := some 1, amount := some 100, currency := none,
    mcc := none, description := none, posting_date := none,
    transaction_date := some 20240101, created_at := none }

/-- An `account_transactions` write with a `posting_date` but no
`transaction_date`. -/
def exAccountTxInputNoTxDate : AccountTransactionInput :=
  { id := 1, account_id := some 1, amount := some 100, currency := none,
    mcc := none, description := none, posting_date := some 20240101,
    transaction_date := none, created_at := none }

theorem memInt_iff (xs : List Int) (x : Int) : memInt xs x = true ↔ x ∈ xs := by
  simp [memInt, List.any_eq_true, beq_iff_eq]

theorem filter_ne_of_mem {α : Type} {l : List α} {g : α → Int} {cid : Int} {x : α}
    (hx : x ∈ l.filter (fun y => g y != cid)) : g x ≠ cid := by
  simpa using (List.mem_filter.mp hx).2

theorem not_child_of_deleted {α β : Type} {l : List α} {parents : List β}
    {pid : β → Int} {fk : α → Int} {p : β → Bool} {x : α} {b : β}
    (hx : x ∈ l.filter (fun y => !(memInt ((parents.filter p).map pid) (fk y))))
    (hb : b ∈ parents) (hp : p b = true) : fk x ≠ pid b := by
  have hfalse : memInt ((parents.filter p).map pid) (fk x) = false := by
    simpa using (List.mem_filter.mp hx).2
  intro heq
  have hmem : pid b ∈ (parents.filter p).map pid :=
    List.mem_map_of_mem pid (List.mem_filter.mpr ⟨hb, hp⟩)
  have htrue := (memInt_iff _ _).mpr hmem
  rw [heq] at hfalse
  exact Bool.noConfusion (htrue.symm.trans hfalse)

theorem detachInvoice_card_id (ids : List Int) (t : CardTransaction) :
    (detachInvoice ids t).card_id = t.card_id := by
  unfold detachInvoice
  split <;> rfl

theorem detachInvoice_not_deleted (ids : List Int) (t : CardTransaction) (j : Int)
    (h : (detachInvoice ids t).invoice_id = some j) : memInt ids j = false := by
  unfold detachInvoice at h
  split at h
  · simp at h
  · next hcond =>
      rw [h] at hcond
      simpa [Option.any] using hcond

/-- C3: a payment order whose status is a terminal value (`COMPLETED`,
`FAILED` or `CANCELLED`) rejects any further status mutation with a
state-conflict error, and a mutation succeeds only when the order is
still `PENDING`. -/
theorem paymentOrder_terminal_status_frozen (o : PaymentOrder)
    (s : PaymentStatus) (now : Int) :
    ((o.status = PaymentStatus.COMPLETED ∨ o.status = PaymentStatus.FAILED ∨
        o.status = PaymentStatus.CANCELLED) →
      o.setStatus s now = Except.error DbError.InvalidStateTransition) ∧
    (∀ o2 : PaymentOrder, o.setStatus s now = Except.ok o2 →
      o.status = PaymentStatus.PENDING) := by
  obtain ⟨i, c, a, cur, sc, pix, st, ca, comp⟩ := o
  constructor
  · rintro (h | h | h) <;> simp only at h <;> subst h <;>
      cases s <;> rfl
  · intro o2 h
    cases st <;> cases s <;> simp [PaymentOrder.setStatus] at h ⊢

/-- Witness for C3 at a concrete terminal order. -/
theorem paymentOrder_terminal_status_frozen_witness :
    PaymentOrder.setStatus exCompletedOrder PaymentStatus.FAILED 7 =
      Except.error DbError.InvalidStateTransition :=
  (paymentOrder_terminal_status_frozen exCompletedOrder PaymentStatus.FAILED 7).1
    (Or.inl rfl)

/-- C4: inserting an `account_balances` row whose `(account_id, as_of)`
pair collides with a stored row fails with a constraint violation, and
inserting a row whose `as_of` differs from every stored row of its
account succeeds. -/
theorem accountBalance_unique_per_as_of (tbl : List AccountBalance)
    (row : AccountBalance) :
    ((∃ r ∈ tbl, r.account_id = row.account_id ∧ r.as_of = row.as_of) →
      insertAccountBalance tbl row = Except.error DbError.ConstraintViolation) ∧
    ((∀ r ∈ tbl, r.account_id = row.account_id → r.as_of ≠ row.as_of) →
      insertAccountBalance tbl row = Except.ok (tbl ++ [row])) := by
  constructor
  · rintro ⟨r, hr, h1, h2⟩
    have hany : tbl.any
        (fun r => r.account_id == row.account_id && r.as_of == row.as_of) = true :=
      List.any_eq_true.mpr ⟨r, hr, by rw [h1, h2]; simp⟩
    simp [insertAccountBalance, hany]
  · intro h
    have hany : tbl.any
        (fun r => r.account_id == row.account_id && r.as_of == row.as_of) = false := by
      rw [List.any_eq_false]
      intro r hr
      simp only [Bool.and_eq_true, beq_iff_eq, not_and]
      exact h r hr
    simp [insertAccountBalance, hany]

/-- Witness for C4: the colliding insert fails, the distinct-`as_of`
insert succeeds. -/
theorem accountBalance_unique_per_as_of_witness :
    insertAccountBalance [exBalance] exBalanceDup =
      Except.error DbError.ConstraintViolation ∧
    insertAccountBalance [exBalance] exBalanceNext =
      Except.ok ([exBalance] ++ [exBalanceNext]) :=
  ⟨(accountBalance_unique_per_as_of [exBalance] exBalanceDup).1 (by decide),
   (accountBalance_unique_per_as_of [exBalance] exBalanceNext).2 (by decide)⟩

/-- C5: `tax_id` and `card_number` are globally unique — inserting a
`customer_core` row with a stored `tax_id`, or a `cards` row with a
stored `card_number`, fails with a unique-constraint violation (leaving
the stored rows untouched), while a fresh value is accepted. -/
theorem tax_id_and_card_number_unique (ctbl : List CustomerCore)
    (crow : CustomerCore) (ktbl : List Card) (krow : Card) :
    ((∃ r ∈ ctbl, r.tax_id = crow.tax_id) →
      insertCustomerCore ctbl crow = Except.error DbError.ConstraintViolation) ∧
    ((∀ r ∈ ctbl, r.tax_id ≠ crow.tax_id) →
      insertCustomerCore ctbl crow = Except.ok (ctbl ++ [crow])) ∧
    ((∃ r ∈ ktbl, r.card_number = krow.card_number) →
      insertCard ktbl krow = Except.error DbError.ConstraintViolation) ∧
    ((∀ r ∈ ktbl, r.card_number ≠ krow.card_number) →
      insertCard ktbl krow = Except.ok (ktbl ++ [krow])) := by
  refine ⟨?_, ?_, ?_, ?_⟩
  · rintro ⟨r, hr, h1⟩
    have hany : ctbl.any (fun r => r.tax_id == crow.tax_id) = true :=
      List.any_eq_true.mpr ⟨r, hr, by rw [h1]; simp⟩
    simp [insertCustomerCore, hany]
  · intro h
    have hany : ctbl.any (fun r => r.tax_id == crow.tax_id) = false := by
      rw [List.any_eq_false]
      intro r hr
      simpa using h r hr
    simp [insertCustomerCore, hany]
  · rintro ⟨r, hr, h1⟩
    have hany : ktbl.any (fun r => r.card_number == krow.card_number) = true :=
      List.any_eq_true.mpr ⟨r, hr, by rw [h1]; simp⟩
    simp [insertCard, hany]
  · intro h
    have hany : ktbl.any (fun r => r.card_number == krow.card_number) = false := by
      rw [List.any_eq_false]
      intro r hr
      simpa using h r hr
    simp [insertCard, hany]

/-- Witness for C5: duplicate `tax_id` and duplicate `card_number`
inserts both fail against singleton tables. -/
theorem tax_id_and_card_number_unique_witness :
    insertCustomerCore [exCustomer] exCustomerDup =
      Except.error DbError.ConstraintViolation ∧
    insertCard [exCard] exCardDup = Except.error DbError.ConstraintViolation :=
  ⟨(tax_id_and_card_number_unique [exCustomer] exCustomerDup [exCard] exCardDup).1
      (by decide),
   (tax_id_and_card_number_unique [exCustomer] exCustomerDup [exCard] exCardDup).2.2.1
      (by decide)⟩

/-- C10: a `card_transactions` write is rejected without
`transaction_date` while `posting_date` may be null, and an
`account_transactions` write is rejected without `posting_date` while
`transaction_date` may be null — mirror-image nullability. -/
theorem transaction_date_nullability_mirrors (ci : CardTransactionInput)
    (ai : AccountTransactionInput) (now : Int) :
    (ci.transaction_date = none →
      CardTransaction.fromInput ci now = Except.error DbError.ConstraintViolation) ∧
    (ci.card_id.isSome = true → ci.amount.isSome = true →
      ci.transaction_date.isSome = true →
      ∃ t, CardTransaction.fromInput ci now = Except.ok t) ∧
    (ai.posting_date = none →
      AccountTransaction.fromInput ai now = Except.error DbError.ConstraintViolation) ∧
    (ai.account_id.isSome = true → ai.amount.isSome = true →
      ai.posting_date.isSome = true →
      ∃ t, AccountTransaction.fromInput ai now = Except.ok t) := by
  obtain ⟨i1, c1, inv1, a1, cur1, mn1, mcc1, d1, td1, pd1, ca1⟩ := ci
  obtain ⟨i2, ac2, a2, cur2, mcc2, d2, pd2, td2, ca2⟩ := ai
  refine ⟨?_, ?_, ?_, ?_⟩
  · intro h
    simp only at h
    subst h
    cases c1 <;> cases a1 <;> rfl
  · intro h1 h2 h3
    simp only [Option.isSome] at h1 h2 h3
    cases c1 <;> cases a1 <;> cases td1 <;> simp_all [CardTransaction.fromInput]
  · intro h
    simp only at h
    subst h
    cases ac2 <;> cases a2 <;> rfl
  · intro h1 h2 h3
    simp only [Option.isSome] at h1 h2 h3
    cases ac2 <;> cases a2 <;> cases pd2 <;> simp_all [AccountTransaction.fromInput]

/-- Witness for C10 at concrete writes missing one of the two dates. -/
theorem transaction_date_nullability_mirrors_witness :
    CardTransaction.fromInput exCardTxInputNoTxDate 0 =
      Except.error DbError.ConstraintViolation ∧
    (∃ t, CardTransaction.fromInput exCardTxInputNoPosting 0 = Except.ok t) ∧
    AccountTransaction.fromInput exAccountTxInputNoPosting 0 =
      Except.error DbError.ConstraintViolation ∧
    (∃ t, AccountTransaction.fromInput exAccountTxInputNoTxDate 0 = Except.ok t) :=
  ⟨(transaction_date_nullability_mirrors exCardTxInputNoTxDate
      exAccountTxInputNoPosting 0).1 rfl,
   (transaction_date_nullability_mirrors exCardTxInputNoPosting
      exAccountTxInputNoTxDate 0).2.1 rfl rfl rfl,
   (transaction_date_nullability_mirrors exCardTxInputNoTxDate
      exAccountTxInputNoPosting 0).2.2.1 rfl,
   (transaction_date_nullability_mirrors exCardTxInputNoPosting
      exAccountTxInputNoTxDate 0).2.2.2 rfl rfl rfl⟩

/-- C6: the schedule generated for a contract with `n` installments
carries `installment_number` values that are exactly the contiguous
sequence `1..n`, with no duplicates and no gaps, and recomputing the
schedule wholesale (running the generator again) preserves this. -/
theorem creditSchedule_installments_contiguous (contractId : Int) (n : Nat)
    (firstDue period amount : Int) :
    (generateCreditSchedule contractId n firstDue period amount).map
        (fun s => s.installment_number) =
      (List.range n).map (fun (i : Nat) => (i : Int) + 1) ∧
    ((generateCreditSchedule contractId n firstDue period amount).map
        (fun s => s.installment_number)).Nodup ∧
    (generateCreditSchedule contractId n firstDue period amount).length = n := by
  have hmap : (generateCreditSchedule contractId n firstDue period amount).map
      (fun s => s.installment_number) =
      (List.range n).map (fun (i : Nat) => (i : Int) + 1) := by
    unfold generateCreditSchedule
    rw [List.map_map]
    rfl
  refine ⟨hmap, ?_, ?_⟩
  · rw [hmap]
    refine List.Nodup.map ?_ (List.nodup_range n)
    intro a b h
    have h2 : (a : Int) + 1 = (b : Int) + 1 := h
    omega
  · unfold generateCreditSchedule
    rw [List.length_map, List.length_range]

/-- C7 counterexample: a `Column(Enum(AccountType))` persists the member
name `"CHECKING"`, which differs from the member's lowercase value
`"checking"` that the claim says is stored. -/
theorem accountType_persisted_as_name_not_value :
    AccountType.storedString AccountType.CHECKING = "CHECKING" ∧
    AccountType.value AccountType.CHECKING = "checking" ∧
    AccountType.storedString AccountType.CHECKING ≠
      AccountType.value AccountType.CHECKING :=
  ⟨rfl, rfl, by decide⟩

/-- C7 (amended): every enumerated field of every enumeration is
persisted as the member's *name* string — not an ordinal code — and
reading the stored string back yields the same member (round-trip). -/
theorem enum_fields_roundtrip_member_name :
    (∀ a : MaritalStatus, MaritalStatus.ofStoredString a.storedString = some a) ∧
    (∀ a : AccountType, AccountType.ofStoredString a.storedString = some a) ∧
    (∀ a : CardProductType, CardProductType.ofStoredString a.storedString = some a) ∧
    (∀ a : CreditProductType,
      CreditProductType.ofStoredString a.storedString = some a) ∧
    (∀ a : InvestmentInstrumentType,
      InvestmentInstrumentType.ofStoredString a.storedString = some a) ∧
    (∀ a : PaymentStatus, PaymentStatus.ofStoredString a.storedString = some a) := by
  refine ⟨?_, ?_, ?_, ?_, ?_, ?_⟩ <;> intro a <;> cases a <;> decide

theorem maritalStatus_stored_none_iff (s : String) :
    MaritalStatus.ofStoredString s = none ↔
      s ∉ (["SINGLE", "MARRIED", "DIVORCED", "WIDOWED", "OTHER"] : List String) := by
  unfold MaritalStatus.ofStoredString
  split_ifs <;> simp_all

theorem accountType_stored_none_iff (s : String) :
    AccountType.ofStoredString s = none ↔
      s ∉ (["CHECKING", "SAVINGS", "PREPAID", "PAYMENT"] : List String) := by
  unfold AccountType.ofStoredString
  split_ifs <;> simp_all

theorem cardProductType_stored_none_iff (s : String) :
    CardProductType.ofStoredString s = none ↔
      s ∉ (["CREDIT", "DEBIT", "HYBRID"] : List String) := by
  unfold CardProductType.ofStoredString
  split_ifs <;> simp_all

theorem creditProductType_stored_none_iff (s : String) :
    CreditProductType.ofStoredString s = none ↔
      s ∉ (["LOAN", "FINANCING", "OVERDRAFT"] : List String) := by
  unfold CreditProductType.ofStoredString
  split_ifs <;> simp_all

theorem instrumentType_stored_none_iff (s : String) :
    InvestmentInstrumentType.ofStoredString s = none ↔
      s ∉ (["FUND", "FIXED_INCOME_BANK", "FIXED_INCOME_PRIVATE", "EQUITY",
            "TREASURY"] : List String) := by
  unfold InvestmentInstrumentType.ofStoredString
  split_ifs <;> simp_all

theorem paymentStatus_stored_none_iff (s : String) :
    PaymentStatus.ofStoredString s = none ↔
      s ∉ (["PENDING", "COMPLETED", "FAILED", "CANCELLED"] : List String) := by
  unfold PaymentStatus.ofStoredString
  split_ifs <;> simp_all

/-- C8: each of the six enumerated categorical fields is a closed set —
a write supplying a value outside the set is rejected with a
domain-value error, exactly when the value is not in the set — while the
free-text categorical columns accept every string. -/
theorem closed_enums_reject_open_text_accepts (s : String) :
    (validateMaritalStatus s = Except.error DbError.DomainValueError ↔
      s ∉ (["SINGLE", "MARRIED", "DIVORCED", "WIDOWED", "OTHER"] : List String)) ∧
    (validateAccountType s = Except.error DbError.DomainValueError ↔
      s ∉ (["CHECKING", "SAVINGS", "PREPAID", "PAYMENT"] : List String)) ∧
    (validateCardProductType s = Except.error DbError.DomainValueError ↔
      s ∉ (["CREDIT", "DEBIT", "HYBRID"] : List String)) ∧
    (validateCreditProductType s = Except.error DbError.DomainValueError ↔
      s ∉ (["LOAN", "FINANCING", "OVERDRAFT"] : List String)) ∧
    (validateInstrumentType s = Except.error DbError.DomainValueError ↔
      s ∉ (["FUND", "FIXED_INCOME_BANK", "FIXED_INCOME_PRIVATE", "EQUITY",
            "TREASURY"] : List String)) ∧
    (validatePaymentStatus s = Except.error DbError.DomainValueError ↔
      s ∉ (["PENDING", "COMPLETED", "FAILED", "CANCELLED"] : List String)) ∧
    validateOpenText s = Except.ok s := by
  refine ⟨?_, ?_, ?_, ?_, ?_, ?_, rfl⟩
  · exact (by cases h : MaritalStatus.ofStoredString s <;>
        simp [validateMaritalStatus, h] : validateMaritalStatus s =
          Except.error DbError.DomainValueError ↔
          MaritalStatus.ofStoredString s = none).trans
      (maritalStatus_stored_none_iff s)
  · exact (by cases h : AccountType.ofStoredString s <;>
        simp [validateAccountType, h] : validateAccountType s =
          Except.error DbError.DomainValueError ↔
          AccountType.ofStoredString s = none).trans
      (accountType_stored_none_iff s)
  · exact (by cases h : CardProductType.ofStoredString s <;>
        simp [validateCardProductType, h] : validateCardProductType s =
          Except.error DbError.DomainValueError ↔
          CardProductType.ofStoredString s = none).trans
      (cardProductType_stored_none_iff s)
  · exact (by cases h : CreditProductType.ofStoredString s <;>
        simp [validateCreditProductType, h] : validateCreditProductType s =
          Except.error DbError.DomainValueError ↔
          CreditProductType.ofStoredString s = none).trans
      (creditProductType_stored_none_iff s)
  · exact (by cases h : InvestmentInstrumentType.ofStoredString s <;>
        simp [validateInstrumentType, h] : validateInstrumentType s =
          Except.error DbError.DomainValueError ↔
          InvestmentInstrumentType.ofStoredString s = none).trans
      (instrumentType_stored_none_iff s)
  · exact (by cases h : PaymentStatus.ofStoredString s <;>
        simp [validatePaymentStatus, h] : validatePaymentStatus s =
          Except.error DbError.DomainValueError ↔
          PaymentStatus.ofStoredString s = none).trans
      (paymentStatus_stored_none_iff s)

/-- Witness for C8: an out-of-set value is rejected by an enumerated
column and accepted verbatim by an open-text column. -/
theorem closed_enums_reject_open_text_accepts_witness :
    validateAccountType "plutonium" = Except.error DbError.DomainValueError ∧
    validateOpenText "plutonium" = Except.ok "plutonium" := by
  have h := closed_enums_reject_open_text_accepts "plutonium"
  exact ⟨h.2.1.mpr (by decide), h.2.2.2.2.2.2⟩

/-- C9 counterexample: `fx_operations.rate` is declared
`Numeric(10, 6)` — scale 6, not the 4 the claim requires of every
price/rate column. -/
theorem fxOperation_rate_scale_not_four :
    fxOperation_rate.scale = 6 ∧ fxOperation_rate.scale ≠ 4 :=
  ⟨rfl, by decide⟩

/-- C9 (amended): every monetary and numeric column is an exact
fixed-point decimal with scale 2 for cash amounts, 4 for prices and the
nominal credit rate, and 8 for instrument quantities — except
`fx_operations.rate`, which is declared with scale 6. -/
theorem numeric_column_scales :
    accountBalance_available_balance.scale = 2 ∧
    accountTransaction_amount.scale = 2 ∧
    cardInvoice_total_amount.scale = 2 ∧
    cardInvoice_minimum_payment.scale = 2 ∧
    cardTransaction_amount.scale = 2 ∧
    creditContract_principal_amount.scale = 2 ∧
    creditContract_rate_nominal.scale = 4 ∧
    creditContract_installment_amount.scale = 2 ∧
    creditSchedule_installment_amount.scale = 2 ∧
    creditSchedule_paid_amount.scale = 2 ∧
    collateral_collateral_value.scale = 2 ∧
    positionFund_quantity.scale = 8 ∧
    positionFund_avg_price.scale = 4 ∧
    positionFund_mark_to_market.scale = 4 ∧
    positionFixedIncome_quantity.scale = 8 ∧
    positionFixedIncome_avg_price.scale = 4 ∧
    positionFixedIncome_mark_to_market.scale = 4 ∧
    positionEquity_quantity.scale = 8 ∧
    positionEquity_avg_price.scale = 4 ∧
    positionEquity_mark_to_market.scale = 4 ∧
    positionTreasury_quantity.scale = 8 ∧
    positionTreasury_avg_price.scale = 4 ∧
    positionTreasury_mark_to_market.scale = 4 ∧
    investmentMovement_quantity.scale = 8 ∧
    investmentMovement_price.scale = 4 ∧
    investmentMovement_amount.scale = 2 ∧
    fxOperation_notional.scale = 2 ∧
    fxOperation_rate.scale = 6 ∧
    paymentOrder_amount.scale = 2 := by
  decide

/-- C2: deleting a `card_invoices` row through the ORM, as the schema is
written, deletes the billed `card_transactions` row outright — the
`cascade="all, delete-orphan"` on `CardInvoice.transactions`
(`models.py:274`) overrides the detach intent — whereas the declared
foreign-key action `ondelete="SET NULL"` (`models.py:289`) alone would
keep the row with `invoice_id` cleared. -/
theorem cardInvoice_orm_delete_removes_transactions :
    (deleteCardInvoiceOrm invoiceDB 1).card_transactions = [] ∧
    (deleteCardInvoiceOrm invoiceDB 1).card_invoices = [] ∧
    (deleteCardInvoiceSetNull invoiceDB 1).card_transactions =
      [{ exCardTx with invoice_id := none }] := by
  decide

/-- C1: deleting a `customer_core` row cascades through the whole
ownership graph — afterwards no surviving row of any dependent table
references the deleted customer, whether directly through its
`customer_id` or through one of the customer's accounts, cards,
invoices, credit contracts or consents. -/
theorem deleteCustomer_cascade_complete (db : DB) (cid : Int) :
    cascadeComplete db (deleteCustomer db cid) cid := by
  unfold cascadeComplete deleteCustomer deletedInvoiceIds deletedAccountIds
    deletedCardIds deletedContractIds deletedConsentIds
  refine ⟨?_, ?_, ?_, ?_, ?_, ?_, ?_, ?_, ?_, ?_, ?_, ?_, ?_, ?_, ?_, ?_, ?_,
    ?_, ?_, ?_, ?_⟩
  · intro c hc
    exact filter_ne_of_mem hc
  · intro r hr
    exact filter_ne_of_mem hr
  · intro a ha
    exact filter_ne_of_mem ha
  · intro b hb a ha hcust
    exact not_child_of_deleted hb ha (by simp [hcust])
  · intro t ht a ha hcust
    exact not_child_of_deleted ht ha (by simp [hcust])
  · intro c hc
    exact filter_ne_of_mem hc
  · intro i hi c hc hcust
    exact not_child_of_deleted hi hc (by simp [hcust])
  · intro t ht c hc hcust
    rw [List.mem_map] at ht
    obtain ⟨t0, ht0, rfl⟩ := ht
    rw [detachInvoice_card_id]
    exact not_child_of_deleted ht0 hc (by simp [hcust])
  · intro t ht i hi c hc hcust hcard heq
    rw [List.mem_map] at ht
    obtain ⟨t0, ht0, rfl⟩ := ht
    have hfalse := detachInvoice_not_deleted _ _ _ heq
    have hcardmem : i.card_id ∈
        (db.cards.filter (fun c => c.customer_id == cid)).map (fun c => c.id) := by
      rw [hcard]
      exact List.mem_map_of_mem _ (List.mem_filter.mpr ⟨hc, by simp [hcust]⟩)
    have hmem : i.id ∈
        ((db.card_invoices.filter (fun i => memInt
            ((db.cards.filter (fun c => c.customer_id == cid)).map (fun c => c.id))
            i.card_id)).map (fun i => i.id)) :=
      List.mem_map_of_mem _
        (List.mem_filter.mpr ⟨hi, (memInt_iff _ _).mpr hcardmem⟩)
    have htrue := (memInt_iff _ _).mpr hmem
    exact Bool.noConfusion (htrue.symm.trans hfalse)
  · intro k hk
    exact filter_ne_of_mem hk
  · intro s hs k hk hcust
    exact not_child_of_deleted hs hk (by simp [hcust])
  · intro g hg k hk hcust
    exact not_child_of_deleted hg hk (by simp [hcust])
  · intro p hp
    exact filter_ne_of_mem hp
  · intro p hp
    exact filter_ne_of_mem hp
  · intro p hp
    exact filter_ne_of_mem hp
  · intro p hp
    exact filter_ne_of_mem hp
  · intro m hm
    exact filter_ne_of_mem hm
  · intro f hf
    exact filter_ne_of_mem hf
  · intro c hc
    exact filter_ne_of_mem hc
  · intro s hs c hc hcust
    exact not_child_of_deleted hs hc (by simp [hcust])
  · intro p hp
    exact filter_ne_of_mem hp

/-- Witness for C1: the cascade is complete on a database holding
customer 1 with one dependent row in every table. -/
theorem deleteCustomer_cascade_complete_witness :
    cascadeComplete exDB (deleteCustomer exDB 1) 1 :=
  deleteCustomer_cascade_complete exDB 1

end Protege
